import Mathlib

/-
Verification of the motion-detecting stream server
(`src/app.py`, `src/app_both.py`).

The embedding models the pure state and control logic of the source:

* `pushMax` is the push of a `collections.deque(maxlen = c)`;
* `debounceStep` / `debounceOutputs` are the debounce tail of
  `MotionAnalyzer.detect_significant_motion` (the OpenCV image pipeline that
  produces the per-frame significance boolean is abstracted as an input);
* `StreamClient`, `add_frame`, `distribute_frame` model the broadcaster
  (`StreamClient.add_frame`, `StreamManager._distribute_frame`);
* `backoffDelay`, `workerIter` model the reconnect loop of
  `StreamManager._stream_worker`;
* `AnalyzerState`, `process_frame` model `MotionAnalyzer.process_frame` of
  `app_both.py` (wall-clock times and fps as exact rationals);
* `save_video_clip` models the fps computation and encoder invocation of
  `MotionAnalyzer._save_video_clip`; `save_video_clip_simple` the
  `save_video_clip` function of `app.py`;
* `manager_stop` models `StreamManager.stop`; `shutdown_finalize` the
  clip finalization in the `finally` block of `app.py`'s `main`.

Exceptions of the source are modelled with `Option` where the source
catches them; every definition is a total computable function.
-/

/-- A decoded frame (payload abstracted to a tag) together with its capture
timestamp, as stored in the `frame_data` dictionaries of
`MotionAnalyzer.process_frame` in `app_both.py`. -/
structure FrameData where
  frame : Nat
  timestamp : ℚ
deriving DecidableEq

/-- Push on the right of a `collections.deque(maxlen = c)`: append the new
entry and evict from the left whatever exceeds the capacity. -/
def pushMax (c : Nat) (xs : List α) (a : α) : List α :=
  let ys := xs ++ [a]
  if c < ys.length then ys.drop (ys.length - c) else ys

/-- The debounce tail of `MotionAnalyzer.detect_significant_motion`: append the
per-frame significance boolean to `motion_buffer` (a deque of capacity
`maxlen`), then report motion only when the buffer holds at least `required`
entries and all of them are true (`if len(...) >= required: return all(...)`,
else `False`). Returns the new buffer and the debounced report. -/
def debounceStep (required maxlen : Nat) (buf : List Bool) (b : Bool) :
    List Bool × Bool :=
  let buf2 := pushMax maxlen buf b
  (buf2, if required ≤ buf2.length then buf2.all id else false)

/-- The debounced outputs of `detect_significant_motion` over a raw per-frame
significance sequence, starting from an empty `motion_buffer`. -/
def debounceOutputs (required maxlen : Nat) (seq : List Bool) : List Bool :=
  (seq.foldl
    (fun acc b =>
      let s := debounceStep required maxlen acc.1 b
      (s.1, acc.2 ++ [s.2]))
    (([] : List Bool), ([] : List Bool))).2

/-- A `StreamClient`: liveness flag and the bounded FIFO of frame bytes
(each frame abstracted to a tag). `failsOnPush` abstracts a client whose
`add_frame` raises an unrecoverable delivery error, which
`_distribute_frame` catches. -/
structure StreamClient where
  connected : Bool
  buffer : List Nat
  failsOnPush : Bool
deriving DecidableEq

/-- `StreamClient.add_frame`: push into the client's
`collections.deque(maxlen = 100)`. -/
def add_frame (buf : List Nat) (x : Nat) : List Nat := pushMax 100 buf x

/-- One client's delivery inside `_distribute_frame`'s `try` block: `none`
models `client.add_frame(frame_bytes)` raising, otherwise the client with the
frame pushed into its FIFO. -/
def clientPush (c : StreamClient) (x : Nat) : Option StreamClient :=
  if c.failsOnPush then none
  else some { c with buffer := add_frame c.buffer x }

/-- One iteration of `_distribute_frame`'s loop over the client set: a
successful push keeps the (updated) client, a raising push records the client
in `clients_to_remove`. -/
def distStep (x : Nat) (acc : List StreamClient × List StreamClient)
    (c : StreamClient) : List StreamClient × List StreamClient :=
  match clientPush c x with
  | some c2 => (acc.1 ++ [c2], acc.2)
  | none => (acc.1, acc.2 ++ [c])

/-- `StreamManager._distribute_frame`: under the clients lock, push the frame
into every client's FIFO, collecting the clients whose push raised; those are
then discarded from the set in the same call. Returns (clients remaining in
the set, clients removed). All exceptions are caught inside the loop, so the
function is total. -/
def distribute_frame (cs : List StreamClient) (x : Nat) :
    List StreamClient × List StreamClient :=
  cs.foldl (distStep x) ([], [])

/-- The FIFO contents of one subscriber after a sequence of publishes, the
subscriber having attached with an empty buffer (`StreamClient.__init__`). -/
def publishAll (ps : List Nat) : List Nat := ps.foldl add_frame []

/-- The reconnect-delay update of `_stream_worker` after a failed connect:
`reconnect_delay = min(reconnect_delay * 1.5, 30)`. -/
def reconnectStep (d : ℚ) : ℚ := min (d * (3 / 2)) 30

/-- The delay slept before the (n+1)-st connect attempt of `_stream_worker`
when every attempt fails: the initial delay is 2 seconds and each failure
applies `reconnectStep`. -/
def backoffDelay : Nat → ℚ
  | 0 => 2
  | n + 1 => reconnectStep (backoffDelay n)

/-- What one outer iteration of `_stream_worker` does observably. -/
inductive WorkerEvent
  | sleep (secs : ℚ)
  | streamStarted
deriving DecidableEq

/-- One outer iteration of `_stream_worker` with current delay `d`:
`_connect_tcp_stream` catches every exception and returns `None` on failure,
modelled by the boolean `connectOk`. On failure the worker sleeps the current
delay and updates it; on success it resets the delay to 2 and starts the read
loop. Returns (next delay, event). -/
def workerIter (d : ℚ) (connectOk : Bool) : ℚ × WorkerEvent :=
  if connectOk then (2, WorkerEvent.streamStarted)
  else (reconnectStep d, WorkerEvent.sleep d)

/-- `self.clip_before = 1.0` of `MotionAnalyzer.__init__` (`app_both.py`). -/
def clip_before : ℚ := 1

/-- `self.clip_after = 2.0` of `MotionAnalyzer.__init__` (`app_both.py`). -/
def clip_after : ℚ := 2

/-- `self.min_clip_length = 2.0` of `MotionAnalyzer.__init__` (`app_both.py`). -/
def min_clip_length : ℚ := 2

/-- `self.process_every_n_frames = 1` of `MotionAnalyzer.__init__`. -/
def process_every_n_frames : Nat := 1

/-- `self.min_clip_length = 1.5` of `MotionAnalyzer.__init__` in `app.py`. -/
def app_min_clip_length : ℚ := 3 / 2

/-- `collections.deque(maxlen=int(fps * 3))`: the capacity of the pre-roll
`frame_buffer`; `int` truncates, which is the floor for the positive fps
values the source uses. -/
def frame_buffer_maxlen (fps : ℚ) : Nat := ((fps * 3).floor).toNat

/-- The mutable state of a `MotionAnalyzer` (`app_both.py`), plus `saved_clips`,
the log of `_save_video_clip` invocations: each entry is the frame list handed
over together with the `clip_start_time` passed as the timestamp. -/
structure AnalyzerState where
  is_recording : Bool
  clip_frames : List FrameData
  clip_start_time : Option ℚ
  last_motion_time : Option ℚ
  frame_buffer : List FrameData
  frame_counter : Nat
  motion_detected : Bool
  last_motion_update : ℚ
  saved_clips : List (List FrameData × ℚ)
deriving DecidableEq

/-- `MotionAnalyzer.__init__` at wall-clock time `t0`
(`self.last_motion_update = time.time()`). -/
def initAnalyzer (t0 : ℚ) : AnalyzerState :=
  { is_recording := false
    clip_frames := []
    clip_start_time := none
    last_motion_time := none
    frame_buffer := []
    frame_counter := 0
    motion_detected := false
    last_motion_update := t0
    saved_clips := [] }

/-- `MotionAnalyzer.process_frame` of `app_both.py` at wall-clock time `now`
(= `time.time()`), with the result of `detect_significant_motion` abstracted
as the input `hasMotion`. Faithful details: the current frame is pushed into
`frame_buffer` before anything else; the frame-sampling check uses the
incremented counter; on the idle-to-recording transition the clip is seeded
with the filtered buffer and then `frame_data` is appended — after the
seeding `for` loop that Python name denotes the last buffer element (the
just-pushed current frame), and its pre-loop value (also the current frame)
if the buffer were empty, which `List.getLastD buf fd` renders exactly.
Handing a finalized clip to `_save_video_clip` is logged in `saved_clips`. -/
def process_frame (fps : ℚ) (st : AnalyzerState) (now : ℚ) (f : Nat)
    (hasMotion : Bool) : AnalyzerState :=
  let fd : FrameData := { frame := f, timestamp := now }
  let buf := pushMax (frame_buffer_maxlen fps) st.frame_buffer fd
  let ctr := st.frame_counter + 1
  let st1 := { st with frame_buffer := buf, frame_counter := ctr }
  if ctr % process_every_n_frames ≠ 0 then st1
  else if hasMotion then
    if st1.is_recording then
      { st1 with
        clip_frames := st1.clip_frames ++ [fd]
        last_motion_time := some now
        motion_detected := true
        last_motion_update := now }
    else
      { st1 with
        is_recording := true
        clip_start_time := some now
        clip_frames :=
          buf.filter (fun d => now - clip_before ≤ d.timestamp)
            ++ [buf.getLastD fd]
        last_motion_time := some now
        motion_detected := true
        last_motion_update := now }
  else
    let st2 :=
      if st1.is_recording then
        let cl := st1.clip_frames ++ [fd]
        if clip_after < now - st1.last_motion_time.getD 0 then
          { st1 with
            is_recording := false
            clip_frames := []
            saved_clips :=
              if min_clip_length ≤ now - st1.clip_start_time.getD 0 then
                st1.saved_clips ++ [(cl, st1.clip_start_time.getD 0)]
              else st1.saved_clips }
        else { st1 with clip_frames := cl }
      else st1
    if 2 < now - st2.last_motion_update then
      { st2 with motion_detected := false }
    else st2

/-- The ffmpeg invocation built by `_save_video_clip`: the two `-r` arguments
(input-side framing before `-i -`, output framing before `-vsync cfr`) and the
number of raw frames written to its stdin. -/
structure EncoderCmd where
  input_fps : ℚ
  output_fps : ℚ
  frame_count : Nat
deriving DecidableEq

/-- The padding loop of `_save_video_clip`: append `n` copies of the final
frame, each timestamped `1 / fps` after the then-last entry. -/
def pad_frames (fps : ℚ) (lastF : Nat) : Nat → List FrameData → List FrameData
  | 0, fs => fs
  | n + 1, fs =>
      pad_frames fps lastF n
        (fs ++ [{ frame := lastF
                  timestamp :=
                    (fs.getLastD { frame := lastF, timestamp := 0 }).timestamp
                      + 1 / fps }])

/-- `MotionAnalyzer._save_video_clip` of `app_both.py`: `none` models the
immediate `return` on an empty frame list, before any filename is built or
ffmpeg is spawned (the output directory was created in `__init__`). Otherwise:
duration from first and last timestamps; if it is under `min_clip_length`,
append `int((min_clip_length - duration) * fps)` duplicates of the last frame
and account the duration as exactly `min_clip_length`; then
`actual_fps = len(frames) / duration` clamped by `max(5.0, min(30.0, _))`, and
ffmpeg is invoked with that one value as both `-r` arguments. -/
def save_video_clip (fps : ℚ) (frames : List FrameData) : Option EncoderCmd :=
  if frames = [] then none
  else
    let fb := frames.headD { frame := 0, timestamp := 0 }
    let fe := frames.getLastD { frame := 0, timestamp := 0 }
    let actual_duration := fe.timestamp - fb.timestamp
    let padded :=
      if actual_duration < min_clip_length then
        (pad_frames fps fe.frame
            ((((min_clip_length - actual_duration) * fps).floor).toNat)
            frames,
          min_clip_length)
      else (frames, actual_duration)
    let actual_fps := (padded.1.length : ℚ) / padded.2
    let clamped := max 5 (min 30 actual_fps)
    some { input_fps := clamped, output_fps := clamped
           frame_count := padded.1.length }

/-- The observable effects of `save_video_clip` in `app.py`. -/
structure SimpleSave where
  ensured_output_dir : Bool
  encoder_fps : Option ℚ
  frames_written : Nat
  returned_path : Bool
deriving DecidableEq

/-- `save_video_clip` of `app.py`: an empty frame list returns `None` at once,
before `os.makedirs`, before the filename is built, and before ffmpeg is
spawned; otherwise the directory is ensured, every frame is written to ffmpeg
at the nominal capture fps, and the output path is returned. -/
def save_video_clip_simple (frames : List Nat) (fps : ℚ) : SimpleSave :=
  if frames = [] then
    { ensured_output_dir := false
      encoder_fps := none
      frames_written := 0
      returned_path := false }
  else
    { ensured_output_dir := true
      encoder_fps := some fps
      frames_written := frames.length
      returned_path := true }

/-- A `StreamManager`'s state as far as `stop()` touches it: the running flag,
the client set, and (if motion detection is enabled) the analyzer. -/
structure ManagerState where
  running : Bool
  clients : List StreamClient
  analyzer : Option AnalyzerState
deriving DecidableEq

/-- `StreamManager.stop`: set `running = False`, mark every client
disconnected, clear the client set, release the capture. Returns the new
manager state and the former clients as the consumers now see them. The
analyzer field is carried over untouched — `stop` contains no clip handling. -/
def manager_stop (m : ManagerState) : ManagerState × List StreamClient :=
  ({ m with running := false, clients := [] },
    m.clients.map (fun c => { c with connected := false }))

/-- The clip finalization in the `finally` block of `app.py`'s `main`: if the
analyzer is still recording with a nonempty clip, persist the clip when its
length `now - clip_start` is at least the minimum, otherwise do nothing.
Returns the clip handed to `save_video_clip`, if any. -/
def shutdown_finalize (isRec : Bool) (clipFrames : List Nat)
    (clipStart now : ℚ) : Option (List Nat) :=
  if isRec && !clipFrames.isEmpty then
    if app_min_clip_length ≤ now - clipStart then some clipFrames else none
  else none

/-- A concrete analyzer state mid-recording: clip running since time 0, last
motion at 2.5, clip long enough to persist. -/
def recordingAnalyzer : AnalyzerState :=
  { is_recording := true
    clip_frames := [⟨1, 0⟩, ⟨2, 1⟩, ⟨3, 5 / 2⟩]
    clip_start_time := some 0
    last_motion_time := some (5 / 2)
    frame_buffer := [⟨1, 0⟩, ⟨2, 1⟩, ⟨3, 5 / 2⟩]
    frame_counter := 3
    motion_detected := true
    last_motion_update := 5 / 2
    saved_clips := [] }

/-- A concrete manager, mid-recording, with two live clients. -/
def recordingManager : ManagerState :=
  { running := true
    clients :=
      [{ connected := true, buffer := [], failsOnPush := false },
       { connected := true, buffer := [7], failsOnPush := false }]
    analyzer := some recordingAnalyzer }

/-- Two frames through `process_frame` with no motion: one at time 0, one at
time 10 — far beyond the 3-second pre-roll retention the spec describes. -/
def preRollTrace : AnalyzerState :=
  process_frame 30 (process_frame 30 (initAnalyzer 0) 0 1 false) 10 2 false

/-- A motion episode of 0.3 seconds: motion confirmed at time 0 and still
present at time 0.3. -/
def midTrace : AnalyzerState :=
  process_frame 30 (process_frame 30 (initAnalyzer 0) 0 1 true) (3 / 10) 2 true

/-- The same run one no-motion frame later, at time 2.4, which exceeds the
post-roll window and finalizes the clip. -/
def motionTrace : AnalyzerState :=
  process_frame 30 midTrace (12 / 5) 3 false

/-- Sixty-one frames spanning exactly 2.0 seconds (timestamps k / 30). -/
def frames61 : List FrameData :=
  (List.range 61).map (fun k => { frame := k, timestamp := (k : ℚ) / 30 })

theorem pushMax_length (c : Nat) (xs : List α) (a : α) :
    (pushMax c xs a).length = min c (xs.length + 1) := by
  unfold pushMax
  dsimp only
  split <;> rename_i h <;>
    simp only [List.length_drop, List.length_append, List.length_singleton]
      at h ⊢ <;>
    omega

theorem pushMax_suffix (c : Nat) (xs : List α) (a : α) :
    pushMax c xs a <:+ xs ++ [a] := by
  unfold pushMax
  dsimp only
  split
  · exact List.drop_suffix _ _
  · exact List.suffix_refl _

theorem suffix_append_same {l₁ l₂ : List α} (h : l₁ <:+ l₂) (l₃ : List α) :
    l₁ ++ l₃ <:+ l₂ ++ l₃ := by
  obtain ⟨r, rfl⟩ := h
  exact ⟨r, (List.append_assoc r l₁ l₃).symm⟩

theorem pushMax_getLastD (c : Nat) (xs : List α) (a d : α) (hc : 1 ≤ c) :
    (pushMax c xs a).getLastD d = a := by
  unfold pushMax
  dsimp only
  split
  · rw [List.length_append, List.length_singleton,
      List.drop_append_of_le_length (by omega)]
    exact List.getLastD_concat d a _
  · exact List.getLastD_concat d a xs

theorem publish_fold (ps : List Nat) (acc q : List Nat)
    (hlen : acc.length ≤ 100) (hsuf : acc <:+ q) :
    (ps.foldl add_frame acc).length ≤ 100 ∧ ps.foldl add_frame acc <:+ q ++ ps := by
  induction ps generalizing acc q with
  | nil => simpa using ⟨hlen, hsuf⟩
  | cons p ps ih =>
      have h1 : (add_frame acc p).length ≤ 100 := by
        have := pushMax_length 100 acc p
        unfold add_frame
        omega
      have h2 : add_frame acc p <:+ q ++ [p] :=
        (pushMax_suffix 100 acc p).trans (suffix_append_same hsuf [p])
      have h3 := ih (add_frame acc p) (q ++ [p]) h1 h2
      simpa [List.append_assoc] using h3

theorem dist_fold (cs : List StreamClient) (x : Nat) (a b : List StreamClient) :
    cs.foldl (distStep x) (a, b)
      = (a ++ cs.filterMap (fun c => clientPush c x),
          b ++ cs.filter (fun c => c.failsOnPush)) := by
  induction cs generalizing a b with
  | nil => simp
  | cons c cs ih =>
      cases hf : c.failsOnPush <;>
        simp [distStep, clientPush, hf, ih, List.filterMap_cons, List.filter_cons,
          List.append_assoc]

/-- C1, counterexample. With a MotionWindow capacity of 3 and a
required-consecutive count of 3, the debounced output of the
`detect_significant_motion` logic on the raw sequence [T,T,F,T,T,T,F,F,F] is
still false at the 5th frame (index 4): at that point the window holds
[F,T,T]. This refutes the claim that the debounced result first becomes true
exactly at the 5th frame (it first becomes true at the 6th). -/
theorem debounce_fifth_frame_false :
    (debounceOutputs 3 3
        [true, true, false, true, true, true, false, false, false]).getD 4 true
      = false := by decide

/-- C1, as amended. With capacity 3 and required-consecutive count 3 the
debounced outputs on [T,T,F,T,T,T,F,F,F] are [F,F,F,F,F,T,F,F,F]: the result
becomes true for the first time at the 6th frame (not the 5th) and is false
again from the 7th frame on, hence by the 9th; and in general a frame's
debounced report is true exactly when the just-updated window holds at least
the required-consecutive count of entries and every entry in it is true. -/
theorem debounce_window_rule :
    debounceOutputs 3 3 [true, true, false, true, true, true, false, false, false]
        = [false, false, false, false, false, true, false, false, false]
      ∧ ∀ (required maxlen : Nat) (buf : List Bool) (b : Bool),
          ((debounceStep required maxlen buf b).2 = true ↔
            required ≤ (pushMax maxlen buf b).length ∧
              ∀ x ∈ pushMax maxlen buf b, x = true) := by
  constructor
  · decide
  · intro required maxlen buf b
    unfold debounceStep
    dsimp only
    split <;> rename_i h
    · simp [List.all_eq_true, h]
    · simp only [Bool.false_eq_true, false_iff, not_and]
      intro hr
      exact absurd hr h

/-- C2. After a subscriber attaches (empty FIFO) and any sequence `ps` of
frames is published to it via `_distribute_frame` / `add_frame`, its FIFO
holds a suffix of `ps` of length at most the capacity 100; and a push into a
full FIFO (100 entries) evicts exactly the oldest entry. `add_frame` is a
total function of the buffer — the producer is never blocked by, and never
sees an error from, a slow consumer. -/
theorem fifo_suffix_bound (ps : List Nat) (xs : List Nat) (x : Nat)
    (h : xs.length = 100) :
    (publishAll ps).length ≤ 100 ∧ publishAll ps <:+ ps
      ∧ add_frame xs x = xs.drop 1 ++ [x] := by
  refine ⟨?_, ?_, ?_⟩
  · exact (publish_fold ps [] [] (by simp) (List.suffix_refl [])).1
  · simpa using (publish_fold ps [] [] (by simp) (List.suffix_refl [])).2
  · unfold add_frame pushMax
    dsimp only
    rw [if_pos (by simp [h]), List.length_append, List.length_singleton]
    have h1 : xs.length + 1 - 100 = 1 := by omega
    rw [h1, List.drop_append_of_le_length (by omega)]

/-- C2, witness: a concrete publish sequence and a concrete full FIFO. -/
theorem fifo_suffix_bound_witness :
    (List.replicate 100 0).length = 100
      ∧ ((publishAll [1, 2, 3]).length ≤ 100 ∧ publishAll [1, 2, 3] <:+ [1, 2, 3]
          ∧ add_frame (List.replicate 100 0) 7
              = (List.replicate 100 0).drop 1 ++ [7]) :=
  ⟨by simp, fifo_suffix_bound [1, 2, 3] (List.replicate 100 0) 7 (by simp)⟩

/-- C3. While the manager is running and every connect attempt fails, the
sleep before the (n+1)-st reconnect attempt is exactly
min(2 * 1.5 ^ n, 30) — the sequence 2, 3, 4.5, … capped at 30 seconds — and
after any successful connect the delay is reset to the initial 2 seconds.
`backoffDelay` is total in n (the retry loop never stops on its own), and
connect failures are modelled as a boolean because `_connect_tcp_stream`
catches every exception and returns `None`, so no exception escapes the
stream worker. -/
theorem backoff_formula :
    (∀ n : Nat, backoffDelay n = min (2 * (3 / 2 : ℚ) ^ n) 30)
      ∧ ∀ d : ℚ, workerIter d true = (2, WorkerEvent.streamStarted) := by
  constructor
  · intro n
    induction n with
    | zero => norm_num [backoffDelay]
    | succ n ih =>
        rw [backoffDelay, ih, reconnectStep,
          min_mul_of_nonneg _ _ (by norm_num : (0 : ℚ) ≤ 3 / 2), min_assoc]
        norm_num [pow_succ]
        rw [mul_assoc]
  · intro d
    rfl

/-- C9. If pushing a published frame into some subscriber's FIFO raises, that
subscriber is removed from the set within the same `_distribute_frame` pass,
every other subscriber still receives the frame in the same call (the
surviving set is exactly the non-failing clients, each with the frame pushed
into its FIFO), and `distribute_frame` is a total function — no exception
propagates to the producer. -/
theorem distribute_removes_failing (cs : List StreamClient) (x : Nat) :
    (distribute_frame cs x).1 = cs.filterMap (fun c => clientPush c x)
      ∧ (distribute_frame cs x).2 = cs.filter (fun c => c.failsOnPush)
      ∧ ∀ c : StreamClient, c.failsOnPush = false →
          clientPush c x = some { c with buffer := add_frame c.buffer x } := by
  refine ⟨?_, ?_, ?_⟩
  · rw [distribute_frame, dist_fold]
    simp
  · rw [distribute_frame, dist_fold]
    simp
  · intro c hc
    simp [clientPush, hc]

/-- C10. Calling the clip saver with an empty frame list returns `None`
immediately: in `app_both.py`'s `_save_video_clip` no ffmpeg process is
spawned and no output path produced, and in `app.py`'s `save_video_clip`
additionally no output directory is created, no frame written, no path
returned; both are total functions, so no error is raised. -/
theorem empty_clip_no_save (fps : ℚ) :
    save_video_clip fps [] = none
      ∧ save_video_clip_simple [] fps
          = { ensured_output_dir := false
              encoder_fps := none
              frames_written := 0
              returned_path := false } :=
  ⟨rfl, rfl⟩

theorem process_frame_buffer (fps : ℚ) (st : AnalyzerState) (now : ℚ) (f : Nat)
    (m : Bool) :
    (process_frame fps st now f m).frame_buffer
      = pushMax (frame_buffer_maxlen fps) st.frame_buffer { frame := f, timestamp := now } := by
  unfold process_frame
  dsimp only
  repeat' split
  all_goals rfl

/-- C4, counterexample. Stopping a manager whose analyzer is mid-recording
runs no finalize-and-maybe-persist logic at all: `manager_stop` returns the
analyzer state unchanged — still recording, `saved_clips` still empty — even
though the partial clip (started at 0, now 2.5 long) satisfies the
minimum-length rule and would have been persisted had finalization run once.
This refutes the claim that the finalize logic runs exactly once on stop. -/
theorem stop_skips_finalize :
    (manager_stop recordingManager).1.analyzer = some recordingAnalyzer
      ∧ recordingAnalyzer.is_recording = true
      ∧ recordingAnalyzer.saved_clips = []
      ∧ min_clip_length ≤ (5 / 2 : ℚ) - 0 :=
  ⟨rfl, rfl, rfl, by norm_num [min_clip_length]⟩

/-- C4, as amended. `StreamManager.stop` sets the running flag false, empties
the client set and marks every removed client not connected — so after stop
the manager has zero live subscribers — but it performs no clip finalization:
the analyzer state, and with it any partial clip, is carried over untouched
and nothing is handed to the encoder. Finalize-on-shutdown exists only in the
simple implementation (`app.py` `main`'s `finally` block), which persists the
partial clip exactly when the analyzer is still recording with a nonempty
clip whose length `now - clip_start` reaches the 1.5 s minimum. -/
theorem stop_clears_clients (m : ManagerState) (r : Bool) (cl : List Nat)
    (cs now : ℚ) :
    (manager_stop m).1.running = false
      ∧ (manager_stop m).1.clients = []
      ∧ (∀ c ∈ (manager_stop m).2, c.connected = false)
      ∧ (manager_stop m).1.analyzer = m.analyzer
      ∧ shutdown_finalize r cl cs now
          = if r = true ∧ cl ≠ [] ∧ app_min_clip_length ≤ now - cs then some cl
            else none := by
  refine ⟨rfl, rfl, ?_, rfl, ?_⟩
  · intro c hc
    simp only [manager_stop, List.mem_map] at hc
    obtain ⟨c0, _, rfl⟩ := hc
    rfl
  · unfold shutdown_finalize
    cases r with
    | false => simp
    | true =>
        by_cases hcl : cl = []
        · subst hcl
          simp
        · by_cases hle : app_min_clip_length ≤ now - cs <;>
            simp [hcl, hle, List.isEmpty_iff]

theorem frame_buffer_maxlen_30 : frame_buffer_maxlen 30 = 90 := by
  have h : ((30 : ℚ) * 3).floor = 90 := by
    norm_num [Rat.floor_def']
  rw [frame_buffer_maxlen, h]
  rfl

theorem preRoll_state : preRollTrace = { initAnalyzer 0 with
    frame_buffer := [⟨1, 0⟩, ⟨2, 10⟩], frame_counter := 2 } := by
  norm_num [preRollTrace, process_frame, initAnalyzer, pushMax,
    process_every_n_frames, frame_buffer_maxlen_30]

/-- C5, counterexample. The pre-roll buffer is not time-bounded: pushing a
frame at time 0 and then one at time 10 leaves both in `frame_buffer`, even
though the first is far older than the claimed 3-second retention window —
nothing older than the window is evicted on push. (The buffer is bounded by
the entry count int(fps * 3) instead.) -/
theorem preroll_not_time_evicted :
    preRollTrace.frame_buffer = [⟨1, 0⟩, ⟨2, 10⟩]
      ∧ ((0 : ℚ) < 10 - 3) := by
  rw [preRoll_state]
  norm_num

/-- C5, as amended. Every frame handed to `process_frame`, in every analyzer
state and whether or not the frame is sampled for detection, is pushed into
the pre-roll `frame_buffer`; the buffer is bounded by entry count
(`int(fps * 3)` slots, about 3 seconds at the nominal fps), evicting oldest
entries only when that count is exceeded; and its timestamps are strictly
increasing provided the incoming frames' timestamps are. -/
theorem preroll_count_bounded (fps : ℚ) (st : AnalyzerState) (now : ℚ)
    (f : Nat) (m : Bool)
    (hmono : st.frame_buffer.Pairwise (fun a b => a.timestamp < b.timestamp))
    (hlt : ∀ d ∈ st.frame_buffer, d.timestamp < now) :
    (process_frame fps st now f m).frame_buffer
        = pushMax (frame_buffer_maxlen fps) st.frame_buffer ⟨f, now⟩
      ∧ (process_frame fps st now f m).frame_buffer.length
          ≤ frame_buffer_maxlen fps
      ∧ (process_frame fps st now f m).frame_buffer.Pairwise
          (fun a b => a.timestamp < b.timestamp) := by
  have happ : (st.frame_buffer ++ [(⟨f, now⟩ : FrameData)]).Pairwise
      (fun a b => a.timestamp < b.timestamp) := by
    rw [List.pairwise_append]
    refine ⟨hmono, List.pairwise_singleton _ _, ?_⟩
    intro a ha b hb
    rw [List.mem_singleton] at hb
    subst hb
    exact hlt a ha
  refine ⟨process_frame_buffer fps st now f m, ?_, ?_⟩
  · rw [process_frame_buffer, pushMax_length]
    exact Nat.min_le_left _ _
  · rw [process_frame_buffer]
    unfold pushMax
    dsimp only
    split
    · exact happ.sublist (List.drop_sublist _ _)
    · exact happ

/-- C5 witness: the buffer invariants instantiated at a fresh analyzer
receiving its first frame at time 1. -/
theorem preroll_count_bounded_witness :
    (initAnalyzer 0).frame_buffer.Pairwise
        (fun a b : FrameData => a.timestamp < b.timestamp)
      ∧ (∀ d ∈ (initAnalyzer 0).frame_buffer, d.timestamp < 1)
      ∧ ((process_frame 30 (initAnalyzer 0) 1 5 false).frame_buffer
            = pushMax (frame_buffer_maxlen 30) (initAnalyzer 0).frame_buffer ⟨5, 1⟩
          ∧ (process_frame 30 (initAnalyzer 0) 1 5 false).frame_buffer.length
              ≤ frame_buffer_maxlen 30
          ∧ (process_frame 30 (initAnalyzer 0) 1 5 false).frame_buffer.Pairwise
              (fun a b => a.timestamp < b.timestamp)) :=
  ⟨by simp [initAnalyzer], by simp [initAnalyzer],
    preroll_count_bounded 30 (initAnalyzer 0) 1 5 false (by simp [initAnalyzer])
      (by simp [initAnalyzer])⟩

theorem frames61_ne : frames61 ≠ [] := by simp [frames61]

theorem frames61_len : frames61.length = 61 := by simp [frames61]

theorem frames61_head : frames61.headD ⟨0, 0⟩ = ⟨0, 0⟩ := by
  simp [frames61, List.range_succ_eq_map]

theorem frames61_last : frames61.getLastD ⟨0, 0⟩ = ⟨60, 2⟩ := by
  have h : frames61
      = (List.range 60).map
          (fun k => ({ frame := k, timestamp := (k : ℚ) / 30 } : FrameData))
        ++ [⟨60, (60 : ℚ) / 30⟩] := by
    rw [frames61, List.range_succ, List.map_append]
    rfl
  rw [h, List.getLastD_concat]
  norm_num

theorem save_frames61 : save_video_clip 30 frames61
    = some { input_fps := 30, output_fps := 30, frame_count := 61 } := by
  rw [save_video_clip, if_neg frames61_ne]
  simp only [frames61_head, frames61_last, frames61_len]
  norm_num [min_clip_length, frames61_len]

/-- C6. For a nonempty clip, `_save_video_clip` invokes the encoder with a
single fps value for both the input-side `-r` and the output `-r`: the clamped
`max 5 (min 30 (frameCount / actualDuration))`, which always lies in [5, 30].
When the measured span `last - first` already reaches the minimum clip length
(so no padding occurs) that value is exactly the clamp of
`frameCount / (last - first)`; when padding occurs the duration is accounted
as exactly `min_clip_length`. In particular, for 61 frames spanning exactly
2.0 seconds the value used is 30 (61 / 2.0 = 30.5, clamped down to 30). -/
theorem actual_fps_clamped (fps : ℚ) (frames : List FrameData)
    (h : frames ≠ []) :
    (∃ cmd, save_video_clip fps frames = some cmd
        ∧ cmd.input_fps = cmd.output_fps
        ∧ 5 ≤ cmd.input_fps ∧ cmd.input_fps ≤ 30
        ∧ (min_clip_length ≤
              (frames.getLastD ⟨0, 0⟩).timestamp - (frames.headD ⟨0, 0⟩).timestamp →
            cmd.input_fps
              = max 5 (min 30 ((frames.length : ℚ) /
                  ((frames.getLastD ⟨0, 0⟩).timestamp
                    - (frames.headD ⟨0, 0⟩).timestamp)))))
      ∧ save_video_clip 30 frames61
          = some { input_fps := 30, output_fps := 30, frame_count := 61 } := by
  refine ⟨?_, save_frames61⟩
  unfold save_video_clip
  rw [if_neg h]
  dsimp only
  refine ⟨_, rfl, rfl, le_max_left _ _, max_le (by norm_num) (min_le_left _ _), ?_⟩
  intro hd
  rw [if_neg (not_lt.mpr hd)]

/-- C6 witness: the clamped-fps facts at the concrete 61-frame, 2.0-second
clip. -/
theorem actual_fps_clamped_witness :
    frames61 ≠ []
      ∧ ((∃ cmd, save_video_clip 30 frames61 = some cmd
            ∧ cmd.input_fps = cmd.output_fps
            ∧ 5 ≤ cmd.input_fps ∧ cmd.input_fps ≤ 30
            ∧ (min_clip_length ≤
                  (frames61.getLastD ⟨0, 0⟩).timestamp
                    - (frames61.headD ⟨0, 0⟩).timestamp →
                cmd.input_fps
                  = max 5 (min 30 ((frames61.length : ℚ) /
                      ((frames61.getLastD ⟨0, 0⟩).timestamp
                        - (frames61.headD ⟨0, 0⟩).timestamp)))))
          ∧ save_video_clip 30 frames61
              = some { input_fps := 30, output_fps := 30, frame_count := 61 }) :=
  ⟨frames61_ne, actual_fps_clamped 30 frames61 frames61_ne⟩

theorem mid_state : midTrace = { initAnalyzer 0 with
    frame_buffer := [⟨1, 0⟩, ⟨2, 3 / 10⟩], frame_counter := 2,
    is_recording := true, clip_start_time := some 0,
    last_motion_time := some (3 / 10), motion_detected := true,
    last_motion_update := 3 / 10,
    clip_frames := [⟨1, 0⟩, ⟨1, 0⟩, ⟨2, 3 / 10⟩] } := by
  norm_num [midTrace, process_frame, initAnalyzer, pushMax,
    process_every_n_frames, frame_buffer_maxlen_30, clip_before]

theorem motion_state : motionTrace = { initAnalyzer 0 with
    frame_buffer := [⟨1, 0⟩, ⟨2, 3 / 10⟩, ⟨3, 12 / 5⟩], frame_counter := 3,
    clip_start_time := some 0, last_motion_time := some (3 / 10),
    motion_detected := false, last_motion_update := 3 / 10,
    saved_clips := [([⟨1, 0⟩, ⟨1, 0⟩, ⟨2, 3 / 10⟩, ⟨3, 12 / 5⟩], 0)] } := by
  norm_num [motionTrace, midTrace, process_frame, initAnalyzer, pushMax,
    process_every_n_frames, frame_buffer_maxlen_30,
    clip_before, clip_after, min_clip_length]

/-- C7, counterexample. A motion episode lasting only 0.3 seconds (motion at
times 0 and 0.3, with min-clip-length 2.0 s) does produce a persisted clip:
at the finalize frame (time 2.4) the measured clip length is
2.4 - 0 = 2.4 ≥ 2.0, because the post-roll wait itself (2.0 s) already
exceeds the minimum. This refutes the claim that such an episode yields no
persisted clip. -/
theorem short_episode_persisted :
    motionTrace.saved_clips.length = 1
      ∧ ((3 : ℚ) / 10 - 0 < min_clip_length)
      ∧ motionTrace.is_recording = false := by
  rw [motion_state]
  norm_num [min_clip_length, initAnalyzer]

/-- C7, as amended. While RECORDING and motion is false, the current frame is
still appended to the clip; once (now - last-motion) exceeds the post-roll
threshold (2.0 s), the clip is handed to the encoder iff
(now - clip-start) ≥ the minimum clip length, and the recording flag is reset
and the clip buffer cleared. However, since clip-start ≤ last-motion and the
post-roll threshold equals the minimum clip length, the finalize-time length
always satisfies the minimum: every finalized clip is persisted, so a
0.3-second motion episode yields a persisted clip rather than none. -/
theorem recording_finalize_rule (fps : ℚ) (st : AnalyzerState) (now : ℚ)
    (f : Nat) (lm cs : ℚ) (hrec : st.is_recording = true)
    (hlm : st.last_motion_time = some lm) (hcs : st.clip_start_time = some cs)
    (hord : cs ≤ lm) :
    (clip_after < now - lm →
        ((process_frame fps st now f false).is_recording = false
          ∧ (process_frame fps st now f false).clip_frames = []
          ∧ min_clip_length ≤ now - cs
          ∧ (process_frame fps st now f false).saved_clips
              = st.saved_clips ++ [(st.clip_frames ++ [⟨f, now⟩], cs)]))
      ∧ (now - lm ≤ clip_after →
          ((process_frame fps st now f false).clip_frames
              = st.clip_frames ++ [⟨f, now⟩]
            ∧ (process_frame fps st now f false).is_recording = true
            ∧ (process_frame fps st now f false).saved_clips = st.saved_clips)) := by
  constructor
  · intro hgt
    have hmin : min_clip_length ≤ now - cs := by
      have h2 : (2 : ℚ) < now - lm := by simpa [clip_after] using hgt
      simp only [min_clip_length]
      linarith
    unfold process_frame
    simp only [process_every_n_frames, Nat.mod_one, ne_eq, not_true_eq_false,
      Bool.false_eq_true, if_false, hrec, hlm, hcs, Option.getD_some, hgt,
      if_true, hmin, eq_self_iff_true, not_false_eq_true, ite_true, ite_false]
    split <;> exact ⟨rfl, rfl, trivial, rfl⟩
  · intro hle
    have hngt : ¬ (clip_after < now - lm) := not_lt.mpr hle
    unfold process_frame
    simp only [process_every_n_frames, Nat.mod_one, ne_eq, not_true_eq_false,
      Bool.false_eq_true, if_false, hrec, hlm, hcs, Option.getD_some, hngt,
      if_true, eq_self_iff_true, not_false_eq_true, ite_true, ite_false]
    split <;> exact ⟨rfl, rfl, rfl⟩

/-- C7 witness: the finalize rule applied at the concrete 0.3-second episode,
finalized at time 2.4. -/
theorem recording_finalize_rule_witness :
    midTrace.is_recording = true
      ∧ midTrace.last_motion_time = some (3 / 10)
      ∧ midTrace.clip_start_time = some 0
      ∧ ((0 : ℚ) ≤ 3 / 10)
      ∧ ((clip_after < (12 : ℚ) / 5 - 3 / 10 →
            ((process_frame 30 midTrace (12 / 5) 3 false).is_recording = false
              ∧ (process_frame 30 midTrace (12 / 5) 3 false).clip_frames = []
              ∧ min_clip_length ≤ (12 : ℚ) / 5 - 0
              ∧ (process_frame 30 midTrace (12 / 5) 3 false).saved_clips
                  = midTrace.saved_clips
                      ++ [(midTrace.clip_frames ++ [⟨3, 12 / 5⟩], 0)]))
          ∧ ((12 : ℚ) / 5 - 3 / 10 ≤ clip_after →
              ((process_frame 30 midTrace (12 / 5) 3 false).clip_frames
                  = midTrace.clip_frames ++ [⟨3, 12 / 5⟩]
                ∧ (process_frame 30 midTrace (12 / 5) 3 false).is_recording = true
                ∧ (process_frame 30 midTrace (12 / 5) 3 false).saved_clips
                    = midTrace.saved_clips))) :=
  ⟨by simp [mid_state], by simp [mid_state], by simp [mid_state], by norm_num,
    recording_finalize_rule 30 midTrace (12 / 5) 3 (3 / 10) 0
      (by simp [mid_state]) (by simp [mid_state]) (by simp [mid_state])
      (by norm_num)⟩

/-- C8. On the idle-to-recording transition (motion first confirmed at time
`now`), the new clip equals exactly the entries of the pre-roll buffer (as it
stands at the transition, the current frame having just been pushed into it)
whose timestamp is at least (now - pre-roll seconds), in order, followed by
the current frame appended once at the end, and the clip-start timestamp is
set to `now`. -/
theorem transition_seeds_clip (fps : ℚ) (st : AnalyzerState) (now : ℚ) (f : Nat)
    (hrec : st.is_recording = false) (hc : 1 ≤ frame_buffer_maxlen fps) :
    (process_frame fps st now f true).clip_frames
        = (pushMax (frame_buffer_maxlen fps) st.frame_buffer ⟨f, now⟩).filter
            (fun d => now - clip_before ≤ d.timestamp) ++ [(⟨f, now⟩ : FrameData)]
      ∧ (process_frame fps st now f true).clip_start_time = some now
      ∧ (process_frame fps st now f true).is_recording = true := by
  have hlast := pushMax_getLastD (frame_buffer_maxlen fps) st.frame_buffer
      (⟨f, now⟩ : FrameData) (⟨f, now⟩ : FrameData) hc
  unfold process_frame
  dsimp only
  rw [if_neg (by simp [process_every_n_frames, Nat.mod_one])]
  rw [if_pos rfl]
  rw [if_neg (by simp [hrec])]
  dsimp only
  rw [hlast]
  exact ⟨rfl, rfl, rfl⟩

/-- C8 witness: the transition rule applied at a fresh analyzer seeing motion
on its first frame at time 1. -/
theorem transition_seeds_clip_witness :
    (initAnalyzer 0).is_recording = false
      ∧ 1 ≤ frame_buffer_maxlen 30
      ∧ ((process_frame 30 (initAnalyzer 0) 1 4 true).clip_frames
            = (pushMax (frame_buffer_maxlen 30) (initAnalyzer 0).frame_buffer
                  ⟨4, 1⟩).filter
                (fun d => 1 - clip_before ≤ d.timestamp) ++ [(⟨4, 1⟩ : FrameData)]
          ∧ (process_frame 30 (initAnalyzer 0) 1 4 true).clip_start_time = some 1
          ∧ (process_frame 30 (initAnalyzer 0) 1 4 true).is_recording = true) :=
  ⟨by simp [initAnalyzer], by norm_num [frame_buffer_maxlen_30],
    transition_seeds_clip 30 (initAnalyzer 0) 1 4 (by simp [initAnalyzer])
      (by norm_num [frame_buffer_maxlen_30])⟩
